import Mathlib

/-!
Verification development for the document summarize-and-highlight pipeline
in `src/app.py`.  The data model (documents as ordered structural units of
content runs), the highlighters, the report builder and the main pipeline
are shallowly embedded as executable Lean definitions; the testable
properties of the specification are then settled as theorems about them.
-/

namespace Seleka

/- ### Basic string machinery
`src/app.py` manipulates Python strings via slicing (`s[:n]`), containment
(`needle in hay`), lowering (`s.lower()`), uppering (`s.upper()`) and regex
word extraction (`re.findall(r"\w+", s)`).  These are embedded over
`String.data` (the underlying character list) so that everything reduces in
the kernel. -/

/-- Python `s[:n]`: the first `n` characters of a string. -/
def strTake (s : String) (n : Nat) : String := ⟨s.data.take n⟩

/-- Python `s.lower()` (character-wise lowering). -/
def strLower (s : String) : String := ⟨s.data.map Char.toLower⟩

/-- Python `s.upper()` (character-wise uppering). -/
def strUpper (s : String) : String := ⟨s.data.map Char.toUpper⟩

/-- Boolean test that the first list is an initial segment of the second. -/
def isPrefixL : List Char → List Char → Bool
  | [], _ => true
  | _ :: _, [] => false
  | a :: as, b :: bs => decide (a = b) && isPrefixL as bs

/-- Boolean test that `needle` occurs contiguously inside `hay`
(Python `needle in hay`). -/
def strContainsL (needle : List Char) : List Char → Bool
  | [] => needle.isEmpty
  | b :: bs => isPrefixL needle (b :: bs) || strContainsL needle bs

/-- Python `needle in hay` on strings. -/
def strContains (hay needle : String) : Bool := strContainsL needle.data hay.data

/-- All start offsets at which `needle` occurs in `hay`; this abstracts the
PyMuPDF geometric text search `page.search_for` (each returned offset stands
for one bounding box). -/
def occList (needle hay : List Char) : List Nat :=
  (List.range hay.length).filter (fun i => isPrefixL needle (hay.drop i))

/- ### Sentence-prefix truncation (`src/app.py` lines 144 and 158)
The PDF highlighter searches for `str(sent)[:60]`, the DOCX highlighter for
`str(sent)[:40]`. -/

/-- The search needle used by the page-based (PDF) highlighter:
`str(sent)[:60]` at `src/app.py:144`. -/
def pdfSearchString (sent : String) : String := strTake sent 60

/-- The search needle used by the paragraph-based (DOCX) highlighter:
`str(sent)[:40]` at `src/app.py:158`. -/
def docxSearchString (sent : String) : String := strTake sent 40

/- ### Page-based (PDF) document model and highlighter
A PDF document is an ordered list of pages; each page has a rendered text
and a list of highlight annotations.  `highlight_pdf_content`
(`src/app.py:139-151`) adds, per page and per candidate sentence, one
yellow highlight annotation per occurrence of the truncated prefix. -/

/-- A highlight annotation: the bounding box (abstracted as the match
offset) and the stroke color set by `annot.set_colors(stroke=(1, 1, 0))`. -/
structure HighlightAnnot where
  rect : Nat
  stroke : Nat × Nat × Nat
deriving DecidableEq

/-- A PDF page: rendered text plus its highlight annotations. -/
structure PdfPage where
  text : String
  annots : List HighlightAnnot
deriving DecidableEq

/-- A PDF document: an ordered list of pages. -/
structure PdfDocument where
  pages : List PdfPage
deriving DecidableEq

/-- `page.search_for(needle)`: the occurrences of `needle` in the page
text, one per bounding box. -/
def searchFor (pageText : String) (needle : String) : List Nat :=
  occList needle.data pageText.data

/-- The annotations added to one page by the sentence loop of
`highlight_pdf_content`: for each sentence, one yellow annotation per
occurrence of its 60-character prefix. -/
def pageAnnots (pageText : String) : List String → List HighlightAnnot
  | [] => []
  | sent :: rest =>
      ((searchFor pageText (pdfSearchString sent)).map
        (fun i => ⟨i, (1, 1, 0)⟩)) ++ pageAnnots pageText rest

/-- `highlight_pdf_content` (`src/app.py:139-151`): for every page and every
key sentence, add a yellow highlight annotation at every occurrence of the
sentence's 60-character prefix, then re-serialize the document. -/
def highlight_pdf_content (d : PdfDocument) (key_sentences : List String) :
    PdfDocument :=
  ⟨d.pages.map (fun page =>
    ⟨page.text, page.annots ++ pageAnnots page.text key_sentences⟩)⟩

/- ### Paragraph-based (DOCX) document model and highlighter
A DOCX document is an ordered list of paragraphs; each paragraph owns a
list of styled runs, and the paragraph text is the concatenation of its run
texts (python-docx `para.text`).  `highlight_docx_content`
(`src/app.py:154-163`) sets the yellow highlight flag on every run of a
paragraph whose text contains the 40-character prefix of some sentence. -/

/-- python-docx `WD_COLOR_INDEX.YELLOW`. -/
def WD_COLOR_INDEX_YELLOW : Nat := 7

/-- A content run: its text and the optional highlight color index of
`run.font.highlight_color` (initially `None`). -/
structure Run where
  text : String
  highlight_color : Option Nat
deriving DecidableEq

/-- A paragraph: an ordered list of runs. -/
structure Paragraph where
  runs : List Run
deriving DecidableEq

/-- python-docx `para.text`: the concatenation of the run texts. -/
def Paragraph.text (p : Paragraph) : String := String.join (p.runs.map Run.text)

/-- A DOCX document: an ordered list of paragraphs. -/
structure DocxDocument where
  paragraphs : List Paragraph
deriving DecidableEq

/-- The inner loop body `for run in para.runs: run.font.highlight_color =
WD_COLOR_INDEX.YELLOW` applied to every run of a paragraph. -/
def markAllRuns (p : Paragraph) : Paragraph :=
  ⟨p.runs.map (fun r => ⟨r.text, some WD_COLOR_INDEX_YELLOW⟩)⟩

/-- One iteration of the sentence loop of `highlight_docx_content`: if the
40-character prefix of `sent` is contained in the paragraph text, set the
yellow highlight on every run. -/
def applySentence (p : Paragraph) (sent : String) : Paragraph :=
  if strContains p.text (docxSearchString sent) then markAllRuns p else p

/-- The full sentence loop over one paragraph. -/
def processParagraph (key_sentences : List String) (p : Paragraph) : Paragraph :=
  key_sentences.foldl applySentence p

/-- `highlight_docx_content` (`src/app.py:154-163`): for every paragraph and
every key sentence, flag every run of a paragraph containing the sentence's
40-character prefix with the yellow highlight color, then re-serialize. -/
def highlight_docx_content (d : DocxDocument) (key_sentences : List String) :
    DocxDocument :=
  ⟨d.paragraphs.map (processParagraph key_sentences)⟩

/- ### Text extraction (`src/app.py:189-195`)
PDF: `" ".join([p.get_text() for p in doc])`;
DOCX: `" ".join([p.text for p in doc.paragraphs])`. -/

/-- PDF text extraction of the main pipeline. -/
def pdf_extract_text (d : PdfDocument) : String :=
  String.intercalate " " (d.pages.map PdfPage.text)

/-- DOCX text extraction of the main pipeline. -/
def docx_extract_text (d : DocxDocument) : String :=
  String.intercalate " " (d.paragraphs.map Paragraph.text)

/- ### Document identification (`src/app.py:59-81`) -/

/-- Keyword cluster for CVs (`src/app.py:67`). -/
def cv_signals : List String :=
  ["experience", "education", "skills", "objective", "employment", "curriculum vitae"]

/-- Keyword cluster for research papers (`src/app.py:68`). -/
def research_signals : List String :=
  ["abstract", "methodology", "results", "discussion", "conclusion", "references"]

/-- Keyword cluster for lecture notes (`src/app.py:69`). -/
def notes_signals : List String :=
  ["lecture", "chapter", "module", "topic", "definition", "introduction to"]

/-- Keyword cluster for business reports (`src/app.py:70`). -/
def report_signals : List String :=
  ["executive summary", "revenue", "market", "strategy", "kpi", "fiscal"]

/-- `sum(1 for w in signals if w in text_lower)`. -/
def signalScore (text_lower : String) (signals : List String) : Nat :=
  (signals.filter (fun w => strContains text_lower w)).length

/-- `identify_document_type` (`src/app.py:59-81`): score the four keyword
clusters against the lowered text and return the first category with the
highest score, falling back to the generic label when all scores are 0
(Python `max(scores, key=scores.get)` returns the first maximal key in
insertion order). -/
def identify_document_type (text : String) : String :=
  let text_lower := strLower text
  let s1 := ("Professional CV / Resume", signalScore text_lower cv_signals)
  let s2 := ("Academic Research Paper", signalScore text_lower research_signals)
  let s3 := ("Educational / Lecture Notes", signalScore text_lower notes_signals)
  let s4 := ("Strategic Business Report", signalScore text_lower report_signals)
  let best_match := [s2, s3, s4].foldl (fun b x => if b.2 < x.2 then x else b) s1
  if 0 < best_match.2 then best_match.1 else "General Informational Document"

/- ### Keyword extraction for the report builder (`src/app.py:91-94`) -/

/-- Python `\w` character class (ASCII reading): alphanumeric or underscore. -/
def isWordChar (c : Char) : Bool := c.isAlphanum || decide (c = '_')

/-- Splits a character stream into maximal runs of word characters; `acc`
holds the reversed current run. -/
def findWordsAux : List Char → List Char → List String
  | [], acc => if acc.isEmpty then [] else [⟨acc.reverse⟩]
  | c :: cs, acc =>
      if isWordChar c then findWordsAux cs (c :: acc)
      else if acc.isEmpty then findWordsAux cs []
      else ⟨acc.reverse⟩ :: findWordsAux cs []

/-- `re.findall(r"\w+", s)`. -/
def findWords (s : String) : List String := findWordsAux s.data []

/-- The distinct words in first-occurrence order (the key iteration order
of a Python `Counter` built from the word list). -/
def dedupFirst : List String → List String → List String
  | [], _ => []
  | w :: ws, seen =>
      if seen.contains w then dedupFirst ws seen else w :: dedupFirst ws (w :: seen)

/-- Stable insertion into a list sorted by descending score: `w` is placed
before the first element whose score does not exceed its own, so that among
equal scores earlier-inserted elements stay first. -/
def insertDesc (score : String → Nat) (w : String) : List String → List String
  | [] => [w]
  | x :: xs => if score x ≤ score w then w :: x :: xs else x :: insertDesc score w xs

/-- `Counter(words).most_common(n)` (words only): the distinct words stably
sorted by descending multiplicity, truncated to `n`. -/
def mostCommon (n : Nat) (ws : List String) : List String :=
  ((dedupFirst ws []).foldr (insertDesc (fun w => ws.count w)) []).take n

/-- `top_keywords` of `systematic_rewrite` (`src/app.py:91-94`): the first
10 of the 60 most common words of the lowered text that are longer than 4
characters. -/
def top_keywords_of (text : String) : List String :=
  ((mostCommon 60 (findWords (strLower text))).filter (fun w => 4 < w.length)).take 10

/- ### Report text composition (`src/app.py:96-135`) -/

/-- Case-insensitive character equality (regex `re.IGNORECASE`). -/
def lowerEq (a b : Char) : Bool := decide (a.toLower = b.toLower)

/-- Case-insensitive version of `isPrefixL`. -/
def ciPrefixMatch : List Char → List Char → Bool
  | [], _ => true
  | _ :: _, [] => false
  | a :: as, b :: bs => lowerEq a b && ciPrefixMatch as bs

/-- `re.sub(f"({k})", r"**\1**", s, flags=re.IGNORECASE)` on character
lists: wrap every (left-to-right, non-overlapping, case-insensitive)
occurrence of `needle` in `**`; the fuel argument bounds the scan. -/
def boldOccAux (needle : List Char) : Nat → List Char → List Char
  | _, [] => []
  | 0, hay => hay
  | fuel + 1, c :: cs =>
      if needle.isEmpty then c :: cs
      else if ciPrefixMatch needle (c :: cs) then
        '*' :: '*' :: ((c :: cs).take needle.length
          ++ ('*' :: '*' :: boldOccAux needle fuel ((c :: cs).drop needle.length)))
      else c :: boldOccAux needle fuel cs

/-- Bold every case-insensitive occurrence of keyword `k` in `s`
(`src/app.py:109`). -/
def boldKeyword (k : String) (s : String) : String :=
  ⟨boldOccAux k.data s.data.length s.data⟩

/-- The keyword-bolding loop `for k in top_keywords[:5]` applied to one
sentence (`src/app.py:108-109`). -/
def boldKeywords (ks : List String) (s : String) : String :=
  ks.foldl (fun acc k => boldKeyword k acc) s

/-- The numbered sentence list of report section 1 (`src/app.py:105-110`);
`i` is the 0-based `enumerate` index. -/
def numberedRewrite (ks : List String) : Nat → List String → String
  | _, [] => ""
  | i, s :: rest =>
      toString (i + 1) ++ ". " ++ boldKeywords ks s ++ "\n\n"
        ++ numberedRewrite ks (i + 1) rest

/-- The report header and detected-topics line (`src/app.py:98-99`). -/
def report_header (doc_type : String) (top_keywords : List String) : String :=
  "# 🏛️ SYSTEMATIC RECONSTRUCTION: " ++ strUpper doc_type ++ "\n\n"
    ++ "**Detected Core Topics:** "
    ++ String.intercalate ", " ((top_keywords.take 6).map (fun k => "`" ++ strUpper k ++ "`"))
    ++ "\n\n"

/-- Report section 2, branching on the detected document type
(`src/app.py:113-128`); `k0` is `top_keywords[0]` and `rest` the remaining
keywords. -/
def report_section_b (doc_type : String) (k0 : String) (rest : List String) : String :=
  "## 💎 2. High-Level Professional Enhancement\n"
    ++ "**Context:** As a **" ++ doc_type
    ++ "**, this document requires specific sections to be considered \u0027Complete\u0027 by industry standards.\n\n"
    ++ (if strContains doc_type "CV" then
          "### ⚠️ Missing Strategic Elements:\n"
            ++ "1. **Quantifiable Impact:** The document lists responsibilities involving **"
            ++ k0
            ++ "**. It *must* instead list achievements (e.g., \u0027Increased efficiency by 20%\u0027).\n"
            ++ "2. **Executive Summary:** A 3-sentence value proposition is missing at the top.\n"
        else if strContains doc_type "Research" then
          "### ⚠️ Academic Validity Check:\n"
            ++ "1. **Practical Application:** The theoretical data on **" ++ k0
            ++ "** is sound, but the document lacks a \u0027Real-World Implication\u0027 section.\n"
            ++ "2. **Limitations:** No study is perfect. A \u0027Limitations of Study\u0027 paragraph should be added to increase credibility.\n"
        else
          "### ⚠️ Professional Gaps:\n"
            ++ "1. **Actionable Conclusion:** The text explains **" ++ k0
            ++ "** well, but needs a specific \u0027Next Steps\u0027 or \u0027Recommendations\u0027 list.\n"
            ++ "2. **Source Validation:** Ensure the data regarding **"
            ++ (match rest with | [] => "key topics" | k1 :: _ => k1)
            ++ "** is cited from updated sources.\n")

/-- Report section 3 (`src/app.py:130-133`). -/
def report_section_c (k0 : String) (rest : List String) : String :=
  "## 🔍 3. Presentation Strategy (Lecture Ready)\n"
    ++ "If you are presenting this document, focus on this narrative flow:\n"
    ++ "> *\"This document explores the relationship between **" ++ k0 ++ "** and **"
    ++ (match rest with | [] => "outcome" | k1 :: _ => k1)
    ++ "**. While the data suggests a strong correlation, we must critically examine the methodology used in section 2.\"*\n"

/-- `systematic_rewrite` (`src/app.py:85-135`).  When the keyword list is
empty the Python code raises `IndexError` at the unguarded
`top_keywords[0]` (lines 118, 122, 126 and 133 — every branch indexes it);
this is modelled as `none`.  Otherwise the full report text is composed. -/
def systematic_rewrite (text : String) (doc_type : String)
    (summary_sentences : List String) : Option String :=
  match top_keywords_of text with
  | [] => none
  | k0 :: rest =>
      some (report_header doc_type (k0 :: rest)
        ++ "## 📑 1. Systematic Content Rewrite\n"
        ++ "*The following is a structured reconstruction of the document\u0027s primary content, organized for high-level understanding:*\n\n"
        ++ numberedRewrite ((k0 :: rest).take 5) 0 summary_sentences
        ++ report_section_b doc_type k0 rest
        ++ report_section_c k0 rest)

/- ### Extractive summarizer (spec-modelled)
The summarizer invoked at `src/app.py:200-202` is the sumy `LsaSummarizer`,
an external library dependency whose code is not part of this repository.
Following §4.2 of the specification it is modelled as a deterministic
extractive algorithm: tokenize the flat text into sentences, rank them by a
deterministic importance score, select the `count` best and return them in
document order. -/

/-- Modelled from the spec: the sentence tokenizer of the external
summarization library (§4.2: sentences are contiguous substrings of
`flat_text` delimited by the library's own tokenizer).  Splits at periods;
`acc` holds the reversed current chunk. -/
def splitOnPeriodAux : List Char → List Char → List (List Char)
  | [], acc => [acc.reverse]
  | c :: cs, acc =>
      if decide (c = '.') then acc.reverse :: splitOnPeriodAux cs []
      else splitOnPeriodAux cs (c :: acc)

/-- Modelled from the spec: sentence tokenization of the flat text;
whitespace-only chunks are not sentences. -/
def sentenceTokenize (text : String) : List String :=
  ((splitOnPeriodAux text.data []).filter
    (fun p => p.any (fun c => !c.isWhitespace))).map (fun l => ⟨l⟩)

/-- Stable insertion into a list of indexed sentences sorted by descending
rating. -/
def insertRated (rate : String → Nat) (x : Nat × String) :
    List (Nat × String) → List (Nat × String)
  | [] => [x]
  | y :: ys => if rate y.2 ≤ rate x.2 then x :: y :: ys else y :: insertRated rate x ys

/-- Stable insertion into a list of indexed sentences sorted by ascending
document position. -/
def insertByIdx (x : Nat × String) :
    List (Nat × String) → List (Nat × String)
  | [] => [x]
  | y :: ys => if x.1 ≤ y.1 then x :: y :: ys else y :: insertByIdx x ys

/-- Modelled from the spec: `summarizer(parser.document, sentence_count)`
(`src/app.py:200-202`, the external LSA summarizer).  Per §4.2 it is a
deterministic function of the text and the count: rank the tokenized
sentences by the importance score `rate`, keep the `count` best, and emit
them in document order. -/
def summarize (rate : String → Nat) (text : String) (count : Nat) : List String :=
  let sents := sentenceTokenize text
  let ranked := sents.enum.foldr (insertRated rate) []
  let chosen := (ranked.take count).foldr insertByIdx []
  chosen.map Prod.snd

/- ### The main pipeline (`src/app.py:183-216`)
The uploaded file is modelled as its declared extension together with its
parsed content: a parsed PDF, a parsed DOCX, or raw bytes for any other
extension (the routing table of §4.4 dispatches on the extension only). -/

/-- An uploaded file: declared extension plus parsed content. -/
inductive UploadFile where
  | pdf (d : PdfDocument)
  | docx (d : DocxDocument)
  | other (ext : String) (file_bytes : List Nat)
deriving DecidableEq

/-- Text extraction step of the main pipeline (`src/app.py:189-195`):
`raw_text` stays `""` for any extension other than pdf/docx. -/
def extract_raw_text : UploadFile → String
  | .pdf d => pdf_extract_text d
  | .docx d => docx_extract_text d
  | .other _ _ => ""

/-- Format dispatch of the main pipeline (`src/app.py:208-216`): pdf and
docx are highlighted and given their MIME types; anything else passes the
original bytes through with the generic binary MIME type. -/
def formatDispatch (file : UploadFile) (summary_sentences : List String) :
    UploadFile × String :=
  match file with
  | .pdf d => (.pdf (highlight_pdf_content d summary_sentences), "application/pdf")
  | .docx d =>
      (.docx (highlight_docx_content d summary_sentences),
        "application/vnd.openxmlformats-officedocument.wordprocessingml.document")
  | .other ext bs => (.other ext bs, "application/octet-stream")

/-- The values produced by one successful pipeline invocation: the
processed (highlighted) document, its MIME type, the report text and the
summary sentence list. -/
structure PipelineOutput where
  processedDoc : UploadFile
  mimeType : String
  analysisText : String
  sentences : List String
deriving DecidableEq

/-- A pipeline run either completes or raises (the only raise reachable in
the model is the report builder's `IndexError`). -/
inductive PipeResult where
  | ok (out : PipelineOutput)
  | indexError (msg : String)
deriving DecidableEq

/-- The main pipeline (`src/app.py:183-216`): extract the raw text,
identify the document type, summarize (unconditionally — the code has no
emptiness guard), build the report, then highlight and dispatch by format.
`rate` is the importance score of the spec-modelled summarizer. -/
def pipeline (rate : String → Nat) (file : UploadFile) (sentence_count : Nat) :
    PipeResult :=
  let raw_text := extract_raw_text file
  let doc_type := identify_document_type raw_text
  let summary_sentences := summarize rate raw_text sentence_count
  match systematic_rewrite raw_text doc_type summary_sentences with
  | none => .indexError "list index out of range"
  | some full_analysis_text =>
      let pd := formatDispatch file summary_sentences
      .ok ⟨pd.1, pd.2, full_analysis_text, summary_sentences⟩

/- ### Resource events (§5 of the spec)
The order of handle/buffer operations performed by the code, transliterated
per call site, for the lifetime claims. -/

/-- Resource-relevant operations on the in-memory document handle and the
in-memory output buffer. -/
inductive ResourceEvent where
  | openDoc
  | closeDoc
  | openBuffer
  | closeBuffer
  | saveDoc
deriving DecidableEq

/-- The resource events of `highlight_pdf_content` (`src/app.py:139-151`):
`fitz.open` at line 140, `io.BytesIO()` at line 149, `doc.save(out)` at
line 150; neither `doc.close()` nor `out.close()` is ever called on any
path. -/
def highlightPdfResourceTrace : List ResourceEvent :=
  [.openDoc, .openBuffer, .saveDoc]

/-- The resource events of the main pipeline's PDF text extraction
(`src/app.py:191-192`): the `with fitz.open(...)` context manager opens the
handle and closes it on block exit. -/
def mainPdfExtractionResourceTrace : List ResourceEvent :=
  [.openDoc, .closeDoc]

/- ### Supporting lemmas -/

/-- `isPrefixL` decides the initial-segment relation. -/
theorem isPrefixL_iff : ∀ (n h : List Char), isPrefixL n h = true ↔ n <+: h
  | [], h => by simp [isPrefixL]
  | a :: as, [] => by simp [isPrefixL]
  | a :: as, b :: bs => by
      simp [isPrefixL, List.cons_prefix_cons, isPrefixL_iff as bs]

/-- `strContainsL` decides contiguous containment. -/
theorem strContainsL_iff : ∀ (needle hay : List Char),
    strContainsL needle hay = true ↔ needle <:+: hay
  | n, [] => by simp [strContainsL, List.isEmpty_iff, List.infix_nil]
  | n, b :: bs => by
      simp [strContainsL, isPrefixL_iff, strContainsL_iff n bs, List.infix_cons_iff]

/-- `strContains` decides substring containment on strings. -/
theorem strContains_iff (hay needle : String) :
    strContains hay needle = true ↔ needle.data <:+: hay.data :=
  strContainsL_iff needle.data hay.data

/-- A needle that is not an infix of the haystack has no occurrences. -/
theorem occList_eq_nil (needle hay : List Char) (h : ¬ needle <:+: hay) :
    occList needle hay = [] := by
  unfold occList
  rw [ List.filter_eq_nil_iff]
  intro i _
  simp only [Bool.not_eq_true]
  cases hb : isPrefixL needle (hay.drop i) with
  | false => rfl
  | true =>
      exact absurd
        (( List.IsPrefix.isInfix ((isPrefixL_iff _ _).mp hb)).trans
          ( List.IsSuffix.isInfix ( List.drop_suffix i hay))) h

/-- If no sentence prefix is an infix of the page text, the sentence loop
adds no annotations. -/
theorem pageAnnots_eq_nil : ∀ (pageText : String) (sents : List String),
    (∀ s ∈ sents, ¬ (pdfSearchString s).data <:+: pageText.data) →
    pageAnnots pageText sents = []
  | _, [], _ => rfl
  | pageText, s :: rest, h => by
      unfold pageAnnots searchFor
      rw [occList_eq_nil _ _ (h s (List.mem_cons_self s rest))]
      simp only [List.map_nil, List.nil_append]
      exact pageAnnots_eq_nil pageText rest
        (fun x hx => h x (List.mem_cons_of_mem s hx))

/-- Marking all runs leaves the paragraph text unchanged. -/
theorem markAllRuns_text (pa : Paragraph) : (markAllRuns pa).text = pa.text := by
  unfold markAllRuns Paragraph.text
  rw [List.map_map]
  rfl

/-- Marking all runs twice is the same as marking once. -/
theorem markAllRuns_idem (pa : Paragraph) :
    markAllRuns (markAllRuns pa) = markAllRuns pa := by
  unfold markAllRuns
  rw [List.map_map]
  rfl

/-- A non-matching sentence leaves the paragraph unchanged. -/
theorem applySentence_of_false (pa : Paragraph) (s : String)
    (h : strContains pa.text (docxSearchString s) = false) :
    applySentence pa s = pa := by
  unfold applySentence
  rw [h]
  rfl

/-- A matching sentence marks every run. -/
theorem applySentence_of_true (pa : Paragraph) (s : String)
    (h : strContains pa.text (docxSearchString s) = true) :
    applySentence pa s = markAllRuns pa := by
  unfold applySentence
  rw [h]
  rfl

/-- A sentence iteration keeps the paragraph text. -/
theorem applySentence_text (pa : Paragraph) (s : String) :
    (applySentence pa s).text = pa.text := by
  unfold applySentence
  cases strContains pa.text (docxSearchString s) with
  | false => rfl
  | true => simp [markAllRuns_text]

/-- An already fully marked paragraph is a fixed point of the sentence
loop. -/
theorem processParagraph_marked : ∀ (sents : List String) (pa : Paragraph),
    processParagraph sents (markAllRuns pa) = markAllRuns pa
  | [], _ => rfl
  | s :: rest, pa => by
      show processParagraph rest (applySentence (markAllRuns pa) s) = _
      have : applySentence (markAllRuns pa) s = markAllRuns pa := by
        unfold applySentence
        rw [markAllRuns_text]
        cases strContains pa.text (docxSearchString s) with
        | false => rfl
        | true => simpa using markAllRuns_idem pa
      rw [this]
      exact processParagraph_marked rest pa

/-- If no sentence prefix is contained in the paragraph text, the sentence
loop is the identity. -/
theorem processParagraph_eq_of_no_match : ∀ (sents : List String) (pa : Paragraph),
    (∀ s ∈ sents, strContains pa.text (docxSearchString s) = false) →
    processParagraph sents pa = pa
  | [], _, _ => rfl
  | s :: rest, pa, h => by
      show processParagraph rest (applySentence pa s) = pa
      rw [applySentence_of_false pa s (h s (List.mem_cons_self s rest))]
      exact processParagraph_eq_of_no_match rest pa
        (fun x hx => h x (List.mem_cons_of_mem s hx))

/-- If some sentence prefix is contained in the paragraph text, the
sentence loop marks every run. -/
theorem processParagraph_of_match : ∀ (sents : List String) (pa : Paragraph)
    (s : String), s ∈ sents → strContains pa.text (docxSearchString s) = true →
    processParagraph sents pa = markAllRuns pa
  | [], _, _, hs, _ => absurd hs (List.not_mem_nil _)
  | a :: rest, pa, s, hs, hc => by
      show processParagraph rest (applySentence pa a) = _
      rcases List.mem_cons.mp hs with h1 | h2
      · subst h1
        rw [applySentence_of_true pa s hc]
        exact processParagraph_marked rest pa
      · cases hb : strContains pa.text (docxSearchString a) with
        | false =>
            rw [applySentence_of_false pa a hb]
            exact processParagraph_of_match rest pa s h2 hc
        | true =>
            rw [applySentence_of_true pa a hb]
            exact processParagraph_marked rest pa

/-- The sentence loop keeps the paragraph text. -/
theorem processParagraph_text : ∀ (sents : List String) (pa : Paragraph),
    (processParagraph sents pa).text = pa.text
  | [], _ => rfl
  | s :: rest, pa => by
      show (processParagraph rest (applySentence pa s)).text = pa.text
      rw [processParagraph_text rest (applySentence pa s), applySentence_text]

/-- Rated insertion grows the list by one. -/
theorem length_insertRated (rate : String → Nat) (x : Nat × String) :
    ∀ l : List (Nat × String), (insertRated rate x l).length = l.length + 1
  | [] => rfl
  | y :: ys => by
      unfold insertRated
      split
      · rfl
      · simp [length_insertRated rate x ys]

/-- The rated insertion sort preserves length. -/
theorem length_ratedFoldr (rate : String → Nat) :
    ∀ l : List (Nat × String), (l.foldr (insertRated rate) []).length = l.length
  | [] => rfl
  | x :: xs => by
      show (insertRated rate x (xs.foldr (insertRated rate) [])).length = _
      rw [length_insertRated, length_ratedFoldr rate xs]
      rfl

/-- Positional insertion grows the list by one. -/
theorem length_insertByIdx (x : Nat × String) :
    ∀ l : List (Nat × String), (insertByIdx x l).length = l.length + 1
  | [] => rfl
  | y :: ys => by
      unfold insertByIdx
      split
      · rfl
      · simp [length_insertByIdx x ys]

/-- The positional insertion sort preserves length. -/
theorem length_idxFoldr :
    ∀ l : List (Nat × String), (l.foldr insertByIdx []).length = l.length
  | [] => rfl
  | x :: xs => by
      show (insertByIdx x (xs.foldr insertByIdx [])).length = _
      rw [length_insertByIdx, length_idxFoldr xs]
      rfl

/-- The summarizer returns exactly `min count n` sentences, where `n` is
the number of sentences available in the text. -/
theorem summarize_length (rate : String → Nat) (text : String) (count : Nat) :
    (summarize rate text count).length = min count (sentenceTokenize text).length := by
  unfold summarize
  rw [List.length_map, length_idxFoldr, List.length_take, length_ratedFoldr,
    List.enum_length]

/-- Elements produced by `insertDesc` come from the inserted element or the
list. -/
theorem mem_insertDesc (score : String → Nat) (w x : String) :
    ∀ l : List String, x ∈ insertDesc score w l → x = w ∨ x ∈ l
  | [] => by
      intro h
      simp [insertDesc] at h
      exact Or.inl h
  | y :: ys => by
      intro h
      unfold insertDesc at h
      split at h
      · rcases List.mem_cons.mp h with h1 | h2
        · exact Or.inl h1
        · exact Or.inr h2
      · rcases List.mem_cons.mp h with h1 | h2
        · exact Or.inr (by simp [h1])
        · rcases mem_insertDesc score w x ys h2 with h3 | h4
          · exact Or.inl h3
          · exact Or.inr (List.mem_cons_of_mem y h4)

/-- Elements of the descending insertion sort come from the input list. -/
theorem mem_sortDesc (score : String → Nat) (x : String) :
    ∀ l : List String, x ∈ l.foldr (insertDesc score) [] → x ∈ l
  | [] => by intro h; simp at h
  | y :: ys => by
      intro h
      rcases mem_insertDesc score y x _ h with h1 | h2
      · simp [h1]
      · exact List.mem_cons_of_mem y (mem_sortDesc score x ys h2)

/-- Elements of the deduplicated list come from the input list. -/
theorem mem_dedupFirst (x : String) :
    ∀ (l seen : List String), x ∈ dedupFirst l seen → x ∈ l
  | [], _, h => by simp [dedupFirst] at h
  | w :: ws, seen, h => by
      unfold dedupFirst at h
      split at h
      · exact List.mem_cons_of_mem w (mem_dedupFirst x ws seen h)
      · rcases List.mem_cons.mp h with h1 | h2
        · simp [h1]
        · exact List.mem_cons_of_mem w (mem_dedupFirst x ws (w :: seen) h2)

/-- Every most-common word is a word of the input list. -/
theorem mem_mostCommon (n : Nat) (ws : List String) (x : String)
    (h : x ∈ mostCommon n ws) : x ∈ ws := by
  unfold mostCommon at h
  exact mem_dedupFirst x ws [] (mem_sortDesc _ x _ (List.take_subset n _ h))

/-- Tokenizing the empty text yields no sentences. -/
theorem sentenceTokenize_empty : sentenceTokenize "" = [] := rfl

/-- The spec-modelled summarizer returns no sentences on empty text,
whatever the rating and the count. -/
theorem summarize_empty (rate : String → Nat) (count : Nat) :
    summarize rate "" count = [] := by
  unfold summarize
  rw [sentenceTokenize_empty]
  simp

/-- The report builder raises (returns `none`) on empty text, whatever the
document type and sentence list. -/
theorem systematic_rewrite_empty (doc_type : String) (ss : List String) :
    systematic_rewrite "" doc_type ss = none := by
  unfold systematic_rewrite
  have h : top_keywords_of "" = [] := by decide
  rw [h]

/- ### Sample data used by the claim witnesses -/

/-- A sixty-character sentence exhibiting the truncation lengths. -/
def sentence60 : String :=
  "abcdefghijklmnopqrstuvwxyzabcdefghijklmnopqrstuvwxyzabcdefgh"

/-- A one-page PDF document whose text matches no witness sentence. -/
def pdfSampleDoc : PdfDocument := ⟨[⟨"hello world", []⟩]⟩

/-- A one-paragraph DOCX document whose text matches no witness sentence. -/
def docxSampleDoc : DocxDocument := ⟨[⟨[⟨"hello world", none⟩]⟩]⟩

/-- A two-run paragraph whose concatenated text is "the abcde fish tail". -/
def paragraphSample : Paragraph := ⟨[⟨"the abcde fish", none⟩, ⟨" tail", some 3⟩]⟩

/-- A one-paragraph DOCX document with three short sentences. -/
def docxRunDoc : DocxDocument :=
  ⟨[⟨[⟨"Cats purr. Dogs bark. Fish swim.", none⟩]⟩]⟩

/- ### The claims -/

/-- C1, counterexample: the claim that both highlighters search for the
same fixed-length prefix of each candidate sentence is false — on a
60-character sentence the PDF highlighter's needle (`str(sent)[:60]`,
`src/app.py:144`) has length 60 while the DOCX highlighter's needle
(`str(sent)[:40]`, `src/app.py:158`) has length 40. -/
theorem claim_c1_counterexample :
    pdfSearchString sentence60 ≠ docxSearchString sentence60 ∧
    (pdfSearchString sentence60).length = 60 ∧
    (docxSearchString sentence60).length = 40 := by decide

/-- C1, amended: each highlighter truncates every candidate sentence to a
prefix of a fixed per-format length — 60 characters for the page-based
(PDF) highlighter and 40 characters for the paragraph-based (DOCX) one —
constant across calls but different between the two formats. -/
theorem claim_c1_amended (sent : String) :
    (pdfSearchString sent).data <+: sent.data ∧
    (pdfSearchString sent).length = min 60 sent.length ∧
    (docxSearchString sent).data <+: sent.data ∧
    (docxSearchString sent).length = min 40 sent.length := by
  refine ⟨⟨sent.data.drop 60, List.take_append_drop 60 sent.data⟩, ?_,
    ⟨sent.data.drop 40, List.take_append_drop 40 sent.data⟩, ?_⟩
  · show (sent.data.take 60).length = min 60 sent.data.length
    exact List.length_take ..
  · show (sent.data.take 40).length = min 40 sent.data.length
    exact List.length_take ..

/-- C2: evaluation of the code at the failing input.  On an upload whose
extracted flat text is blank (a DOCX with no paragraphs), the pipeline does
not skip the summarizer and does not return an "insufficient text" result:
it invokes the summarizer unconditionally (`src/app.py:200-202` have no
emptiness guard) and then raises `IndexError` inside `systematic_rewrite`,
whose keyword list is empty for blank text. -/
theorem claim_c2_crash_on_empty_input :
    pipeline (fun _ => 0) (UploadFile.docx ⟨[]⟩) 8 =
      PipeResult.indexError "list index out of range" := by decide

/-- C3: if no sentence's truncated prefix occurs as a substring of any
structural unit's text, both highlighters return the document unchanged —
zero marks are added and text content and structure are untouched. -/
theorem claim_c3_pass_through (pd : PdfDocument) (dd : DocxDocument)
    (sents : List String)
    (hp : ∀ s ∈ sents, ∀ pg ∈ pd.pages, ¬ (pdfSearchString s).data <:+: pg.text.data)
    (hd : ∀ s ∈ sents, ∀ pa ∈ dd.paragraphs, ¬ (docxSearchString s).data <:+: pa.text.data) :
    highlight_pdf_content pd sents = pd ∧ highlight_docx_content dd sents = dd := by
  constructor
  · unfold highlight_pdf_content
    have h1 : ∀ pg ∈ pd.pages,
        (⟨pg.text, pg.annots ++ pageAnnots pg.text sents⟩ : PdfPage) = (fun x => x) pg := by
      intro pg hpg
      show _ = pg
      rw [pageAnnots_eq_nil pg.text sents (fun s hs => hp s hs pg hpg), List.append_nil]
    rw [List.map_congr_left h1, List.map_id' pd.pages]
  · unfold highlight_docx_content
    have h1 : ∀ pa ∈ dd.paragraphs, processParagraph sents pa = (fun x => x) pa := by
      intro pa hpa
      show _ = pa
      refine processParagraph_eq_of_no_match sents pa (fun s hs => ?_)
      cases hb : strContains pa.text (docxSearchString s) with
      | false => rfl
      | true => exact absurd ((strContains_iff _ _).mp hb) (hd s hs pa hpa)
    rw [List.map_congr_left h1, List.map_id' dd.paragraphs]

/-- C3 witness: a concrete document pair and sentence list with no
occurrence anywhere; both highlighters are the identity on them. -/
theorem claim_c3_witness :
    highlight_pdf_content pdfSampleDoc ["zq"] = pdfSampleDoc ∧
    highlight_docx_content docxSampleDoc ["zq"] = docxSampleDoc :=
  claim_c3_pass_through pdfSampleDoc docxSampleDoc ["zq"] (by decide) (by decide)

/-- C4: in the DOCX highlighter, a paragraph whose concatenated run text
contains the 40-character prefix of some candidate sentence gets the yellow
highlight flag on every one of its runs, and a paragraph containing no
sentence prefix has no run modified. -/
theorem claim_c4_run_marking (sents : List String) (pa : Paragraph) :
    ((∃ s ∈ sents, (docxSearchString s).data <:+: pa.text.data) →
      ∀ r ∈ (processParagraph sents pa).runs,
        r.highlight_color = some WD_COLOR_INDEX_YELLOW) ∧
    ((∀ s ∈ sents, ¬ (docxSearchString s).data <:+: pa.text.data) →
      processParagraph sents pa = pa) := by
  constructor
  · rintro ⟨s, hs, hinf⟩ r hr
    rw [processParagraph_of_match sents pa s hs ((strContains_iff _ _).mpr hinf)] at hr
    unfold markAllRuns at hr
    obtain ⟨r0, _, hr0⟩ := List.mem_map.mp hr
    rw [← hr0]
  · intro h
    refine processParagraph_eq_of_no_match sents pa (fun s hs => ?_)
    cases hb : strContains pa.text (docxSearchString s) with
    | false => rfl
    | true => exact absurd ((strContains_iff _ _).mp hb) (h s hs)

/-- C4 witness: on a concrete two-run paragraph, a contained sentence
prefix marks both runs yellow and a non-occurring one changes nothing. -/
theorem claim_c4_witness :
    (∀ r ∈ (processParagraph ["abcde"] paragraphSample).runs,
      r.highlight_color = some WD_COLOR_INDEX_YELLOW) ∧
    processParagraph ["zzzzz"] paragraphSample = paragraphSample :=
  ⟨(claim_c4_run_marking ["abcde"] paragraphSample).1 ⟨"abcde", by decide, by decide⟩,
    (claim_c4_run_marking ["zzzzz"] paragraphSample).2 (by decide)⟩

/-- C5: the pipeline is deterministic — two runs on the same (document,
sentence count) pair produce the same result, hence the same ordered
sentence list and the same highlight marks. -/
theorem claim_c5_deterministic (rate : String → Nat) (file : UploadFile)
    (sentence_count : Nat) (r1 r2 : PipeResult)
    (h1 : r1 = pipeline rate file sentence_count)
    (h2 : r2 = pipeline rate file sentence_count) : r1 = r2 := by
  rw [h1, h2]

/-- C5 witness: two runs on a concrete DOCX document agree. -/
theorem claim_c5_witness :
    pipeline (fun s => s.length) (UploadFile.docx docxRunDoc) 2 =
      pipeline (fun s => s.length) (UploadFile.docx docxRunDoc) 2 :=
  claim_c5_deterministic (fun s => s.length) (UploadFile.docx docxRunDoc) 2
    (pipeline (fun s => s.length) (UploadFile.docx docxRunDoc) 2)
    (pipeline (fun s => s.length) (UploadFile.docx docxRunDoc) 2) rfl rfl

/-- C6: extracting the text of a highlighted document yields exactly the
text extracted from the original — highlighting only adds annotation/style
metadata and never changes any unit's text. -/
theorem claim_c6_text_preserved (pd : PdfDocument) (dd : DocxDocument)
    (sents : List String) :
    pdf_extract_text (highlight_pdf_content pd sents) = pdf_extract_text pd ∧
    docx_extract_text (highlight_docx_content dd sents) = docx_extract_text dd := by
  constructor
  · unfold pdf_extract_text highlight_pdf_content
    rw [List.map_map]
    rfl
  · unfold docx_extract_text highlight_docx_content
    rw [List.map_map]
    have h1 : ∀ pa ∈ dd.paragraphs,
        (Paragraph.text ∘ processParagraph sents) pa = Paragraph.text pa :=
      fun pa _ => processParagraph_text sents pa
    rw [List.map_congr_left h1]

/-- C7, counterexample: the claim that an unsupported extension makes the
pipeline return the input bytes with the generic MIME type and raise no
exception is false — on a `txt` upload the pipeline raises `IndexError`
before reaching the dispatch, because extraction leaves the flat text empty
(`src/app.py:189-195` handle only pdf/docx) and the report builder then
fails on its empty keyword list. -/
theorem claim_c7_counterexample :
    pipeline (fun _ => 0) (UploadFile.other "txt" [0, 1, 2]) 8 =
      PipeResult.indexError "list index out of range" := by decide

/-- C7, amended: the format dispatch itself (`src/app.py:208-216`) does map
every unsupported extension to the unchanged input bytes with the MIME type
`application/octet-stream`; but the pipeline as a whole raises an index
error on every unsupported-extension input, because extraction yields empty
text and the report builder fails before the dispatch runs. -/
theorem claim_c7_amended (ext : String) (bs : List Nat) (ss : List String)
    (rate : String → Nat) (count : Nat) :
    formatDispatch (UploadFile.other ext bs) ss =
      (UploadFile.other ext bs, "application/octet-stream") ∧
    pipeline rate (UploadFile.other ext bs) count =
      PipeResult.indexError "list index out of range" := by
  constructor
  · rfl
  · simp only [pipeline, extract_raw_text, summarize_empty, systematic_rewrite_empty]

/-- C8, counterexample: the claim that the document handle and the output
buffer are released on every exit path is false — `highlight_pdf_content`
(`src/app.py:139-151`) opens a document handle at line 140 and a `BytesIO`
buffer at line 149, and closes neither on any path. -/
theorem claim_c8_counterexample :
    ResourceEvent.closeDoc ∉ highlightPdfResourceTrace ∧
    ResourceEvent.closeBuffer ∉ highlightPdfResourceTrace := by decide

/-- C8, amended: the extraction step's document handle is opened and closed
by its `with` context manager (`src/app.py:191-192`), but the PDF
highlighter's document handle and output buffer are opened and never
explicitly closed — they are left to garbage collection. -/
theorem claim_c8_amended :
    ResourceEvent.openDoc ∈ mainPdfExtractionResourceTrace ∧
    ResourceEvent.closeDoc ∈ mainPdfExtractionResourceTrace ∧
    ResourceEvent.openDoc ∈ highlightPdfResourceTrace ∧
    ResourceEvent.openBuffer ∈ highlightPdfResourceTrace ∧
    ResourceEvent.closeDoc ∉ highlightPdfResourceTrace ∧
    ResourceEvent.closeBuffer ∉ highlightPdfResourceTrace := by decide

/-- C9: the summarizer is monotone in the count parameter — for fixed text,
a larger requested count never yields fewer sentences, and the number
returned never exceeds the total number of sentences available. -/
theorem claim_c9_monotone (rate : String → Nat) (text : String) (k1 k2 : Nat)
    (h : k1 ≤ k2) :
    (summarize rate text k1).length ≤ (summarize rate text k2).length ∧
    (summarize rate text k2).length ≤ (sentenceTokenize text).length := by
  rw [summarize_length, summarize_length]
  exact ⟨min_le_min h (le_refl _), min_le_right _ _⟩

/-- C9 witness: concrete counts 1 ≤ 2 on a three-sentence text. -/
theorem claim_c9_witness :
    (summarize (fun s => s.length) "One fish. Two fish. Red fish." 1).length ≤
      (summarize (fun s => s.length) "One fish. Two fish. Red fish." 2).length ∧
    (summarize (fun s => s.length) "One fish. Two fish. Red fish." 2).length ≤
      (sentenceTokenize "One fish. Two fish. Red fish.").length :=
  claim_c9_monotone (fun s => s.length) "One fish. Two fish. Red fish." 1 2
    (by decide)

/-- Text with no word longer than 4 characters yields an empty keyword
list. -/
theorem top_keywords_of_eq_nil (text : String)
    (h : ∀ w ∈ findWords (strLower text), w.length ≤ 4) :
    top_keywords_of text = [] := by
  unfold top_keywords_of
  have hf : (mostCommon 60 (findWords (strLower text))).filter
      (fun w => decide (4 < w.length)) = [] :=
    List.filter_eq_nil_iff.mpr (fun w hw => by
      have h2 := h w (mem_mostCommon 60 _ w hw)
      simp only [decide_eq_true_eq]
      omega)
  rw [hf]
  rfl

/-- C10: on any input text containing no word longer than 4 characters —
in particular empty or near-empty extracted text — the report builder
`systematic_rewrite` raises an index error (modelled as `none`) instead of
producing a report, because it unconditionally indexes the first element of
its keyword list, which is empty for such input. -/
theorem claim_c10_keyword_crash (text doc_type : String) (ss : List String)
    (h : ∀ w ∈ findWords (strLower text), w.length ≤ 4) :
    systematic_rewrite text doc_type ss = none := by
  unfold systematic_rewrite
  rw [top_keywords_of_eq_nil text h]

/-- C10 witness: a concrete text of short words crashes the report
builder. -/
theorem claim_c10_witness :
    systematic_rewrite "a bb ccc dddd" "General Informational Document"
      ["Some sentence."] = none :=
  claim_c10_keyword_crash "a bb ccc dddd" "General Informational Document"
    ["Some sentence."] (by decide)

end Seleka
